import Mathlib

/-!
Shallow embedding of `src/pyserver/pyserver.py` (the M:OTION python backend):
the frame demultiplexer and connection loop (`ws_track`), the `FaceTracker`
state machine (`process`, `_on_result`, `fps`), and the pure payload assembly
(`build_empty_payload`, `build_payload`, `blendshape_lookup`,
`extract_pose_from_matrix`, `estimate_pose_from_landmarks`).

Python floats are modelled as exact rationals; millisecond timestamps as
integers; byte buffers as lists of naturals.  External library functions
(math.sqrt / math.atan2 / math.degrees, json.loads, image decode, the
mediapipe engine) are modelled at their interface boundary: the real-valued
math primitives are a `FloatOps` parameter and theorems hold for every
instantiation, so in particular for the true real-valued one.
-/

namespace Motion

/-- A 3-d facial landmark point (normalized image-space coordinates). -/
structure Landmark where
  x : ℚ
  y : ℚ
  z : ℚ

/-- One blendshape category: a name and a score, as produced by the engine. -/
structure BlendshapeEntry where
  category_name : String
  score : ℚ

/-- A 4x4 facial transformation matrix (row-major, upper-left 3x3 = rotation),
the result of `np.array(matrix).reshape((4,4))` in `extract_pose_from_matrix`. -/
def Matrix4 : Type := Fin 4 → Fin 4 → ℚ

/-- A mediapipe `FaceLandmarkerResult` as consumed by `build_payload`:
per-face landmark sequences (landmarks of each face indexed by landmark id),
per-face blendshape lists, and the optional transformation matrices. -/
structure DetResult where
  face_landmarks : List (Nat → Landmark)
  face_blendshapes : List (List BlendshapeEntry)
  facial_transformation_matrixes : List Matrix4

/-- The parsed JSON header of an inbound message: a mapping with an optional
`ts` field (integer milliseconds). -/
structure Header where
  ts : Option Int

/-- The real-valued math primitives used by the pose estimators
(`math.sqrt`, `math.atan2`, `math.degrees`), kept as a parameter of the
embedding: every theorem below holds for an arbitrary instantiation. -/
structure FloatOps where
  sqrt : ℚ → ℚ
  atan2 : ℚ → ℚ → ℚ
  degrees : ℚ → ℚ

/-- `pose` sub-object of the output payload. -/
structure Pose where
  yawDeg : ℚ
  pitchDeg : ℚ
  rollDeg : ℚ
deriving DecidableEq

/-- `eye` sub-object of the output payload. -/
structure Eye where
  leftOpen : ℚ
  rightOpen : ℚ
deriving DecidableEq

/-- `mouth` sub-object of the output payload (`open_` renders the source keyword-colliding
`open` key, which is a Lean keyword). -/
structure Mouth where
  open_ : ℚ
  smile : ℚ
deriving DecidableEq

/-- `brow` sub-object of the output payload. -/
structure Brow where
  leftUp : ℚ
  rightUp : ℚ
deriving DecidableEq

/-- `debug` sub-object of the output payload. -/
structure Debug where
  serverFps : ℚ
  latencyMs : Int
deriving DecidableEq

/-- The output payload assembled by `build_payload` / `build_empty_payload`. -/
structure Payload where
  ts : Int
  present : Bool
  pose : Pose
  eye : Eye
  mouth : Mouth
  brow : Brow
  debug : Debug
deriving DecidableEq

/-- `build_empty_payload(ts_ms, present)` from the source: default payload with
identity pose, full eye openness, zero mouth/brow activity, zero debug. -/
def build_empty_payload (ts_ms : Int) (present : Bool) : Payload :=
  { ts := ts_ms
    present := present
    pose := { yawDeg := 0, pitchDeg := 0, rollDeg := 0 }
    eye := { leftOpen := 1, rightOpen := 1 }
    mouth := { open_ := 0, smile := 0 }
    brow := { leftUp := 0, rightUp := 0 }
    debug := { serverFps := 0, latencyMs := 0 } }

/-- Linear search of the inner loop of `blendshape_lookup` over `blendshapes[0]`. -/
def lookupScore : List BlendshapeEntry → String → ℚ
  | [], _ => 0
  | e :: rest, name => if e.category_name = name then e.score else lookupScore rest name

/-- `blendshape_lookup(blendshapes, name)` from the source: 0.0 when the
per-face list is empty, otherwise the first matching score of the first face,
0.0 when the name is absent. -/
def blendshape_lookup (blendshapes : List (List BlendshapeEntry)) (name : String) : ℚ :=
  match blendshapes with
  | [] => 0
  | first :: _ => lookupScore first name

/-- `extract_pose_from_matrix(matrix)` from the source: X-Y-Z Euler extraction
of the upper-left 3x3 rotation; returns `(yaw, pitch, roll)` in degrees
(the source returns the list `[yaw, pitch, roll]`). -/
def extract_pose_from_matrix (ops : FloatOps) (m : Matrix4) : ℚ × ℚ × ℚ :=
  let sy := ops.sqrt (m 0 0 * m 0 0 + m 1 0 * m 1 0)
  if sy < 1e-6 then
    (ops.degrees (ops.atan2 (-(m 2 0)) sy),
     ops.degrees (ops.atan2 (-(m 1 2)) (m 1 1)),
     0)
  else
    (ops.degrees (ops.atan2 (-(m 2 0)) sy),
     ops.degrees (ops.atan2 (m 2 1) (m 2 2)),
     ops.degrees (ops.atan2 (m 1 0) (m 0 0)))

/-- `estimate_pose_from_landmarks(landmarks)` from the source: landmark-based
fallback using indices 33 (left eye outer), 263 (right eye outer), 1 (nose
tip); returns `(yaw, pitch, roll)` in degrees. -/
def estimate_pose_from_landmarks (ops : FloatOps) (landmarks : Nat → Landmark) : ℚ × ℚ × ℚ :=
  let le := landmarks 33
  let re := landmarks 263
  let nose := landmarks 1
  let vx := re.x - le.x
  let vy := re.y - le.y
  let vz := re.z - le.z
  (ops.degrees (ops.atan2 vz vx),
   ops.degrees (ops.atan2 nose.z vy),
   ops.degrees (ops.atan2 vy vx))

/-- `build_payload(result, header, fps_server)` from the source.  `now` is the
value of `int(time.time() * 1000)` at call time.  Mirrors the source line by
line: start from the empty payload, set `serverFps`, return it unless the
result has at least one face; otherwise fill eye/mouth/brow from blendshape
lookups, choose matrix-based pose when a transformation matrix is present and
the landmark fallback otherwise, and set `latencyMs` only when the header
declared a truthy `ts`. -/
def build_payload (ops : FloatOps) (result : Option DetResult) (header : Header)
    (fps_server : ℚ) (now : Int) : Payload :=
  let ts_ms : Int := header.ts.getD now
  let payload := build_empty_payload ts_ms false
  let payload := { payload with debug := { payload.debug with serverFps := fps_server } }
  match result with
  | none => payload
  | some res =>
    match res.face_landmarks with
    | [] => payload
    | lm0 :: _ =>
      let blend := res.face_blendshapes
      let payload := { payload with present := true }
      let payload := { payload with eye :=
        { leftOpen := max 0 (1 - blendshape_lookup blend "eyeBlinkLeft")
          rightOpen := max 0 (1 - blendshape_lookup blend "eyeBlinkRight") } }
      let smile_left := blendshape_lookup blend "mouthSmileLeft"
      let smile_right := blendshape_lookup blend "mouthSmileRight"
      let payload := { payload with mouth :=
        { open_ := min 1 (blendshape_lookup blend "jawOpen")
          smile := (smile_left + smile_right) * 0.5 } }
      let payload := { payload with brow :=
        { leftUp := max (blendshape_lookup blend "browInnerUp")
            (blendshape_lookup blend "browOuterUpLeft")
          rightUp := max (blendshape_lookup blend "browInnerUp")
            (blendshape_lookup blend "browOuterUpRight") } }
      let ypr :=
        match res.facial_transformation_matrixes with
        | mat :: _ => extract_pose_from_matrix ops mat
        | [] => estimate_pose_from_landmarks ops lm0
      let payload := { payload with pose :=
        { yawDeg := ypr.1, pitchDeg := ypr.2.1, rollDeg := ypr.2.2 } }
      match header.ts with
      | some t =>
        if t ≠ 0 then
          { payload with debug := { payload.debug with latencyMs := max 0 (now - t) } }
        else payload
      | none => payload

/-- `FaceTracker.fps()` from the source: 0.0 with fewer than 2 history
entries; otherwise `dt = hist[-1] - hist[0]` in milliseconds, 0.0 when
`dt <= 0`, else `(len - 1) / (dt / 1000)`. -/
def fps (hist : List Int) : ℚ :=
  if hist.length < 2 then 0
  else
    let dt : Int := hist.getLastD 0 - hist.headD 0
    if dt ≤ 0 then 0
    else ((hist.length - 1 : ℕ) : ℚ) / ((dt : ℚ) / 1000)

/-- The history update of `FaceTracker.process` on a successful completion:
`self._fps_hist.append(ts); if len(self._fps_hist) > 30: self._fps_hist.pop(0)`. -/
def fpsHistPush (hist : List Int) (ts : Int) : List Int :=
  let h := hist ++ [ts]
  if h.length > 30 then h.tail else h

/-- The single-future correlation slot (`self._future`).  `owner` is ghost
state naming which `process` call created the future; `value` is `none` while
the future is not done and `some (srcId, ts)` once `set_result` ran, where
`srcId` is ghost state naming which `detect_async` submission the delivered
result came from. -/
structure FutureSlot where
  owner : Nat
  value : Option (Nat × Int)
deriving DecidableEq

/-- The mutable state of a `FaceTracker`: the correlation slot, the latest
delivered result (ghost-tagged by its submission) with its timestamp, and the
rolling completion-timestamp history. -/
structure TrackerState where
  future : Option FutureSlot
  latest : Option Nat
  latest_ts : Int
  fps_hist : List Int
deriving DecidableEq

/-- `FaceTracker.__init__`: no future, no latest result, empty history. -/
def initTracker : TrackerState :=
  { future := none, latest := none, latest_ts := 0, fps_hist := [] }

/-- `FaceTracker._on_result(result, _image, timestamp_ms)`: record the latest
result and, when the current future exists and is not done, complete it with
the delivered result — whichever submission it came from. -/
def on_result (st : TrackerState) (srcId : Nat) (ts : Int) : TrackerState :=
  let st := { st with latest := some srcId, latest_ts := ts }
  match st.future with
  | some slot =>
    if slot.value = none then
      { st with future := some { slot with value := some (srcId, ts) } }
    else st
  | none => st

/-- The start of `FaceTracker.process(frame_rgb, ts_ms)`: overwrite
`self._future` with a fresh, not-done future owned by this call, then submit
the frame via `detect_async`. -/
def process_start (st : TrackerState) (reqId : Nat) : TrackerState :=
  { st with future := some { owner := reqId, value := none } }

/-- The end of `FaceTracker.process`: `await asyncio.wait_for(self._future,
timeout=1.0)`.  If the future was completed by the callback before the wait
ended, record the completion timestamp into the rolling history and return the
result; on timeout (`asyncio.TimeoutError`) return `none` and leave all other
state — including the still-pending future — untouched. -/
def process_finish (st : TrackerState) : TrackerState × Option (Nat × Int) :=
  match st.future with
  | some slot =>
    match slot.value with
    | some (srcId, ts) =>
      ({ st with fps_hist := fpsHistPush st.fps_hist ts }, some (srcId, ts))
    | none => (st, none)
  | none => (st, none)

/-- Events of a tracker execution: a `process` call starting (future created,
frame submitted), the engine callback firing for submission `srcId`, and the
wait of a `process` call ending (success or timeout, by `process_finish`). -/
inductive TrackerEv
  | procStart (reqId : Nat)
  | callback (srcId : Nat) (ts : Int)
  | procFinish
deriving DecidableEq

/-- One step of the tracker state machine.  The second component is the value
returned by `process` when the event is a wait ending: `some none` models a
timed-out call returning `None`. -/
def trackerStep (st : TrackerState) : TrackerEv → TrackerState × Option (Option (Nat × Int))
  | .procStart reqId => (process_start st reqId, none)
  | .callback srcId ts => (on_result st srcId ts, none)
  | .procFinish =>
    let sr := process_finish st
    (sr.1, some sr.2)

/-- Run a sequence of tracker events from a state. -/
def runTracker (st : TrackerState) : List TrackerEv → TrackerState
  | [] => st
  | e :: rest => runTracker (trackerStep st e).1 rest

/-- Python exceptions distinguished by the except clauses of `ws_track`:
`WebSocketDisconnect`, `RuntimeError`, and every other `Exception`. -/
inductive PyExc
  | wsDisconnect
  | runtimeError (msg : String)
  | otherExc (msg : String)
deriving DecidableEq

/-- A decoded RGB raster, opaque at the interface boundary of the core. -/
inductive Frame
  | mk
deriving DecidableEq

/-- The external collaborators of one `ws_track` message iteration:
`json.loads` over the utf-8 decoded header slice (`none` models the raised
`JSONDecodeError`/`UnicodeDecodeError`), `decode_jpeg` (returns `None` on
failure, never raises), the awaited `face_tracker.process` outcome (which may
raise), the math primitives, the current wall clock, and the value of
`face_tracker.fps()`. -/
structure Collab where
  jsonLoads : List Nat → Option Header
  decode_jpeg : List Nat → Option Frame
  process : Frame → Int → Except PyExc (Option DetResult)
  ops : FloatOps
  now : Int
  tracker_fps : ℚ

/-- `int.from_bytes(bs, "little")`. -/
def intFromBytesLE (bs : List Nat) : Nat :=
  bs.foldr (fun b acc => b + 256 * acc) 0

/-- A message sent back to the peer: a JSON payload or an error object. -/
inductive OutMsg
  | payload (p : Payload)
  | errorMsg (msg : String)
deriving DecidableEq

/-- What the loop does after handling one message. -/
inductive LoopAct
  | contLoop
  | stopLoop
deriving DecidableEq

/-- The message carried by the `JSONDecodeError` raised inside `json.loads`. -/
def jsonErrMsg : String := "json decode error"

/-- The body of the `try` block of one `ws_track` iteration, after a binary
message `raw` was received: parse the 4-byte little-endian header length,
slice and JSON-decode the header (raising on failure), split off the image
bytes, decode them (an absent payload is sent immediately when decoding
fails), run the tracker, and assemble the payload. -/
def ws_body (c : Collab) (raw : List Nat) : Except PyExc OutMsg :=
  let header_len := intFromBytesLE (raw.take 4)
  match c.jsonLoads ((raw.drop 4).take header_len) with
  | none => .error (.otherExc jsonErrMsg)
  | some header =>
    let jpeg_bytes := raw.drop (4 + header_len)
    let ts_ms : Int := header.ts.getD c.now
    match c.decode_jpeg jpeg_bytes with
    | none => .ok (.payload (build_empty_payload ts_ms false))
    | some frame =>
      match c.process frame ts_ms with
      | .error e => .error e
      | .ok result => .ok (.payload (build_payload c.ops result header c.tracker_fps c.now))

/-- One iteration of the `ws_track` loop with its except clauses:
`WebSocketDisconnect` breaks the loop; `RuntimeError` is printed and breaks
the loop; every other exception is reported back as an error object and the
loop continues. -/
def ws_iteration (c : Collab) (raw : List Nat) : Option OutMsg × LoopAct :=
  match ws_body c raw with
  | .ok msg => (some msg, .contLoop)
  | .error .wsDisconnect => (none, .stopLoop)
  | .error (.runtimeError _) => (none, .stopLoop)
  | .error (.otherExc m) => (some (.errorMsg m), .contLoop)

/-- Does a loop iteration respond with an absent-result payload
(`present = false`) and keep the connection alive? -/
def respondsAbsentAndStaysAlive : Option OutMsg × LoopAct → Bool
  | (some (.payload p), .contLoop) => p.present == false
  | _ => false

/-- Modelled from the spec: the digits of a JSON integer literal, most
significant first (helper for `jsonLoadsModel`). -/
def digitsToNat (bs : List Nat) : Option Nat :=
  match bs with
  | [] => none
  | _ =>
    bs.foldl
      (fun acc b =>
        match acc with
        | none => none
        | some n => if 48 ≤ b ∧ b ≤ 57 then some (n * 10 + (b - 48)) else none)
      (some 0)

/-- Modelled from the spec: `json.loads` composed with utf-8 decoding, which
is outside the repository, restricted to the header mappings of this
protocol — the empty mapping (bytes `\x7b\x7d`) and a mapping with a single
non-negative integer `ts` field (bytes `\x7b"ts":<digits>\x7d`).  Every
other byte string fails; in particular the empty string is not valid JSON. -/
def jsonLoadsModel (bs : List Nat) : Option Header :=
  if bs = [123, 125] then some { ts := none }
  else if bs.take 6 = [123, 34, 116, 115, 34, 58] ∧ bs.getLastD 0 = 125 then
    match digitsToNat ((bs.drop 6).dropLast) with
    | some n => some { ts := some (n : Int) }
    | none => none
  else none

/-- Rational stand-ins for `math.sqrt` / `math.atan2` / `math.degrees`, used
only to instantiate theorems that hold for every `FloatOps` on concrete
witnesses: `Rat.sqrt` is exact on squares (in particular at 0), `atan2` is
the first-order approximation `y / x`, and `degrees` multiplies by 180 over
the convergent 355/113 of pi. -/
def floatOpsModel : FloatOps :=
  { sqrt := Rat.sqrt
    atan2 := fun y x => if x = 0 then 0 else y / x
    degrees := fun r => r * 180 * 113 / 355 }

/-- Concrete collaborator instantiation used by concrete evaluations: the
modelled `json.loads`, an image decoder that accepts any byte string, and a
tracker that completes with no detection result. -/
def collabModel : Collab :=
  { jsonLoads := jsonLoadsModel
    decode_jpeg := fun _ => some Frame.mk
    process := fun _ _ => .ok none
    ops := floatOpsModel
    now := 0
    tracker_fps := 0 }

/-- Collaborator whose tracker call raises `RuntimeError`, as a mediapipe
engine fault can. -/
def collabRuntimeFault : Collab :=
  { collabModel with process := fun _ _ => .error (.runtimeError "engine fault") }

/-- Collaborator whose tracker call raises a non-`RuntimeError` exception. -/
def collabOtherFault : Collab :=
  { collabModel with process := fun _ _ => .error (.otherExc "bad matrix") }

/-- Is a rational in the unit interval? -/
def inUnit (q : ℚ) : Prop := 0 ≤ q ∧ q ≤ 1

/-- All six eye/mouth/brow fields of a payload lie in the unit interval. -/
def fieldsInUnit (p : Payload) : Prop :=
  inUnit p.eye.leftOpen ∧ inUnit p.eye.rightOpen ∧ inUnit p.mouth.open_ ∧
    inUnit p.mouth.smile ∧ inUnit p.brow.leftUp ∧ inUnit p.brow.rightUp

/-- The rolling history update is a suffix construction: folding
`fpsHistPush` over a completion sequence keeps exactly the last 30 entries. -/
lemma foldl_fpsHistPush_drop (l : List Int) :
    List.foldl fpsHistPush [] l = l.drop (l.length - 30) := by
  induction l using List.reverseRecOn with
  | nil => rfl
  | append_singleton xs a ih =>
    rw [List.foldl_append, List.foldl_cons, List.foldl_nil, ih, fpsHistPush]
    by_cases h30 : xs.length ≤ 29
    · have hd : xs.length - 30 = 0 := by omega
      have hd2 : xs.length + 1 - 30 = 0 := by omega
      rw [hd, List.drop_zero, if_neg (by simp; omega)]
      rw [List.length_append, List.length_cons, List.length_nil, hd2, List.drop_zero]
    · rw [if_pos (by simp; omega)]
      have hne : xs.drop (xs.length - 30) ≠ [] := by
        intro hc
        have hlen := congrArg List.length hc
        simp at hlen
        omega
      rw [List.tail_append_of_ne_nil hne, List.tail_drop]
      rw [List.length_append, List.length_cons, List.length_nil]
      have h1 : xs.length - 30 + 1 = xs.length + 1 - 30 := by omega
      rw [h1, List.drop_append_of_le_length (by omega)]

/-- `_on_result` never touches the rolling history. -/
lemma on_result_fps_hist (st : TrackerState) (srcId : Nat) (ts : Int) :
    (on_result st srcId ts).fps_hist = st.fps_hist := by
  unfold on_result
  cases st.future with
  | none => rfl
  | some slot =>
    by_cases h : slot.value = none <;> simp [h]

/-- Running only callback events never touches the rolling history. -/
lemma runTracker_callbacks_fps_hist (cbs : List TrackerEv) (st : TrackerState)
    (hcb : ∀ e ∈ cbs, ∃ s t, e = TrackerEv.callback s t) :
    (runTracker st cbs).fps_hist = st.fps_hist := by
  induction cbs generalizing st with
  | nil => rfl
  | cons e rest ih =>
    obtain ⟨s, t, rfl⟩ := hcb e (by simp)
    rw [runTracker, ih _ (fun x hx => hcb x (by simp [hx]))]
    exact on_result_fps_hist st s t

/-- Running a trace through an appended event list composes. -/
lemma runTracker_append (l1 l2 : List TrackerEv) (st : TrackerState) :
    runTracker st (l1 ++ l2) = runTracker (runTracker st l1) l2 := by
  induction l1 generalizing st with
  | nil => rfl
  | cons e rest ih => rw [List.cons_append, runTracker, runTracker, ih]

/-- C4: `fps()` returns exactly 0 when the history has fewer than 2 entries;
otherwise, with dt = newest - oldest milliseconds, it returns exactly 0 when
dt is nonpositive and (count - 1) / (dt / 1000) otherwise; in particular the
history [1000, 1100, 1200] yields 10. -/
theorem fps_spec (hist : List Int) :
    (hist.length < 2 → fps hist = 0) ∧
    (2 ≤ hist.length → hist.getLastD 0 - hist.headD 0 ≤ 0 → fps hist = 0) ∧
    (2 ≤ hist.length → 0 < hist.getLastD 0 - hist.headD 0 →
      fps hist = ((hist.length - 1 : ℕ) : ℚ) /
        (((hist.getLastD 0 - hist.headD 0 : Int) : ℚ) / 1000)) ∧
    fps [1000, 1100, 1200] = 10 := by
  refine ⟨fun h => ?_, fun h2 hdt => ?_, fun h2 hdt => ?_, ?_⟩
  · simp [fps, h]
  · rw [fps, if_neg (by omega)]
    exact if_pos hdt
  · rw [fps, if_neg (by omega)]
    exact if_neg (by omega)
  · norm_num [fps]

/-- C4 witness: concrete histories exercising each branch. -/
theorem fps_spec_witness :
    fps [] = 0 ∧ fps [5, 5] = 0 ∧
    fps [0, 500] = ((([0, 500] : List Int).length - 1 : ℕ) : ℚ) /
      (((([0, 500] : List Int).getLastD 0 - ([0, 500] : List Int).headD 0 : Int) : ℚ) / 1000) ∧
    fps [1000, 1100, 1200] = 10 :=
  ⟨(fps_spec []).1 (by decide),
   (fps_spec [5, 5]).2.1 (by decide) (by decide),
   (fps_spec [0, 500]).2.2.1 (by decide) (by decide),
   (fps_spec [1000, 1100, 1200]).2.2.2⟩

/-- C5: the completion-timestamp history — folding the `process` success
update over any completion sequence — never exceeds 30 entries, always equals
the suffix of the most recent completions in oldest-first order, after 40
completions holds exactly the latest 30, and a successful
start/callback/finish round indeed applies that update to the tracker
state. -/
theorem fps_hist_bound (l : List Int) (st : TrackerState) (srcId : Nat) (ts : Int) :
    (List.foldl fpsHistPush [] l).length ≤ 30 ∧
    List.foldl fpsHistPush [] l = l.drop (l.length - 30) ∧
    (l.length = 40 → List.foldl fpsHistPush [] l = l.drop 10) ∧
    (process_finish (on_result (process_start st 0) srcId ts)).1.fps_hist
      = fpsHistPush st.fps_hist ts := by
  refine ⟨?_, foldl_fpsHistPush_drop l, fun h40 => ?_, rfl⟩
  · rw [foldl_fpsHistPush_drop l, List.length_drop]
    omega
  · rw [foldl_fpsHistPush_drop l, h40]

/-- C5 witness: forty completions leave exactly the latest 30. -/
theorem fps_hist_bound_witness :
    List.foldl fpsHistPush [] ((List.range 40).map Int.ofNat) =
      ((List.range 40).map Int.ofNat).drop 10 :=
  (fps_hist_bound ((List.range 40).map Int.ofNat) initTracker 0 0).2.2.1 (by simp)

/-- C7: with a header declaring ts = T, both an absent detection result and a
zero-face detection result assemble to a payload with present = false,
ts = T, both eyes fully open at 1, zero mouth open and smile, and zero brow
lift. -/
theorem absent_payload_fields (ops : FloatOps) (T : Int) (hdr : Header)
    (fps_server : ℚ) (now : Int) (res : DetResult)
    (hts : hdr.ts = some T) (hfaces : res.face_landmarks = []) :
    ((build_payload ops none hdr fps_server now).present = false ∧
     (build_payload ops none hdr fps_server now).ts = T ∧
     (build_payload ops none hdr fps_server now).eye = { leftOpen := 1, rightOpen := 1 } ∧
     (build_payload ops none hdr fps_server now).mouth = { open_ := 0, smile := 0 } ∧
     (build_payload ops none hdr fps_server now).brow = { leftUp := 0, rightUp := 0 }) ∧
    ((build_payload ops (some res) hdr fps_server now).present = false ∧
     (build_payload ops (some res) hdr fps_server now).ts = T ∧
     (build_payload ops (some res) hdr fps_server now).eye = { leftOpen := 1, rightOpen := 1 } ∧
     (build_payload ops (some res) hdr fps_server now).mouth = { open_ := 0, smile := 0 } ∧
     (build_payload ops (some res) hdr fps_server now).brow = { leftUp := 0, rightUp := 0 }) := by
  simp [build_payload, build_empty_payload, hts, hfaces]

/-- The detection result with no faces. -/
def emptyRes : DetResult :=
  { face_landmarks := [], face_blendshapes := [], facial_transformation_matrixes := [] }

/-- C7 witness: concrete header ts = 1000 and the empty detection result. -/
theorem absent_payload_fields_witness :
    (build_payload floatOpsModel none { ts := some 1000 } 0 2000).present = false ∧
    (build_payload floatOpsModel none { ts := some 1000 } 0 2000).ts = 1000 ∧
    (build_payload floatOpsModel (some emptyRes) { ts := some 1000 } 0 2000).present = false := by
  have h := absent_payload_fields floatOpsModel 1000 { ts := some 1000 } 0 2000 emptyRes rfl rfl
  exact ⟨h.1.1, h.1.2.1, h.2.1⟩

/-- C8: when the rotation submatrix is singular (sy = sqrt(r00^2 + r10^2)
below 1e-6), the matrix decomposition returns yaw = degrees(atan2(-r20, sy)),
pitch = degrees(atan2(-r12, r11)) and roll = 0 exactly; the function is total
(the source performs no division), so no division fault can be raised. -/
theorem extract_pose_singular (ops : FloatOps) (m : Matrix4)
    (h : ops.sqrt (m 0 0 * m 0 0 + m 1 0 * m 1 0) < 1e-6) :
    extract_pose_from_matrix ops m =
      (ops.degrees (ops.atan2 (-(m 2 0)) (ops.sqrt (m 0 0 * m 0 0 + m 1 0 * m 1 0))),
       ops.degrees (ops.atan2 (-(m 1 2)) (m 1 1)),
       0) := by
  unfold extract_pose_from_matrix
  exact if_pos h

/-- C8 witness: the all-zero matrix is singular and decomposes with
roll = 0. -/
theorem extract_pose_singular_witness :
    extract_pose_from_matrix floatOpsModel (fun _ _ => 0) = (0, 0, 0) := by
  have hsy : floatOpsModel.sqrt
      ((fun _ _ => (0 : ℚ)) (0 : Fin 4) (0 : Fin 4) * (fun _ _ => (0 : ℚ)) (0 : Fin 4) (0 : Fin 4)
        + (fun _ _ => (0 : ℚ)) (1 : Fin 4) (0 : Fin 4) * (fun _ _ => (0 : ℚ)) (1 : Fin 4) (0 : Fin 4))
      < 1e-6 := by
    show Rat.sqrt ((0 : ℚ) * 0 + 0 * 0) < 1e-6
    rw [show ((0 : ℚ) * 0 + 0 * 0) = 0 * 0 by ring, Rat.sqrt_eq]
    norm_num
  have h := extract_pose_singular floatOpsModel (fun _ _ => 0) hsy
  simpa [floatOpsModel] using h

/-- C9: the landmark fallback computes, from the landmarks at fixed indices
33 (left eye), 263 (right eye), 1 (nose tip) and v = right - left, yaw =
degrees(atan2(v.z, v.x)), pitch = degrees(atan2(nose.z, v.y)), roll =
degrees(atan2(v.y, v.x)); the assembled payload uses exactly this fallback
when no transformation matrix is available, and the matrix decomposition
whenever one is. -/
theorem pose_fallback (ops : FloatOps) (res : DetResult) (hdr : Header)
    (fps_server : ℚ) (now : Int) (lm0 : Nat → Landmark) (rest : List (Nat → Landmark))
    (hlm : res.face_landmarks = lm0 :: rest) :
    (estimate_pose_from_landmarks ops lm0 =
      (ops.degrees (ops.atan2 ((lm0 263).z - (lm0 33).z) ((lm0 263).x - (lm0 33).x)),
       ops.degrees (ops.atan2 (lm0 1).z ((lm0 263).y - (lm0 33).y)),
       ops.degrees (ops.atan2 ((lm0 263).y - (lm0 33).y) ((lm0 263).x - (lm0 33).x)))) ∧
    (res.facial_transformation_matrixes = [] →
      (build_payload ops (some res) hdr fps_server now).pose =
        { yawDeg := (estimate_pose_from_landmarks ops lm0).1
          pitchDeg := (estimate_pose_from_landmarks ops lm0).2.1
          rollDeg := (estimate_pose_from_landmarks ops lm0).2.2 }) ∧
    (∀ mat mrest, res.facial_transformation_matrixes = mat :: mrest →
      (build_payload ops (some res) hdr fps_server now).pose =
        { yawDeg := (extract_pose_from_matrix ops mat).1
          pitchDeg := (extract_pose_from_matrix ops mat).2.1
          rollDeg := (extract_pose_from_matrix ops mat).2.2 }) := by
  refine ⟨rfl, fun hmat => ?_, fun mat mrest hmat => ?_⟩ <;>
    cases hts : hdr.ts <;>
      simp [build_payload, build_empty_payload, hlm, hmat, hts] <;>
        split <;> rfl

/-- C9 witness: a concrete face with landmarks and no matrix takes the
fallback, and the same face with the identity matrix takes the matrix path. -/
theorem pose_fallback_witness :
    (build_payload floatOpsModel
      (some { face_landmarks := [fun i => { x := (i : ℚ), y := 1, z := 2 }]
              face_blendshapes := []
              facial_transformation_matrixes := [] })
      { ts := some 1000 } 0 2000).pose =
      { yawDeg := (estimate_pose_from_landmarks floatOpsModel
          (fun i => { x := (i : ℚ), y := 1, z := 2 })).1
        pitchDeg := (estimate_pose_from_landmarks floatOpsModel
          (fun i => { x := (i : ℚ), y := 1, z := 2 })).2.1
        rollDeg := (estimate_pose_from_landmarks floatOpsModel
          (fun i => { x := (i : ℚ), y := 1, z := 2 })).2.2 } :=
  (pose_fallback floatOpsModel
    { face_landmarks := [fun i => { x := (i : ℚ), y := 1, z := 2 }]
      face_blendshapes := []
      facial_transformation_matrixes := [] }
    { ts := some 1000 } 0 2000 (fun i => { x := (i : ℚ), y := 1, z := 2 }) [] rfl).2.1 rfl

/-- C10: a `process` call that ends in a detection timeout — a wait ending
that returns absent after the call started and any number of callbacks
fired — leaves the completion-timestamp history unchanged, so `fps()` is the
same before and after the call. -/
theorem timeout_call_preserves_fps (st : TrackerState) (reqId : Nat) (cbs : List TrackerEv)
    (hcb : ∀ e ∈ cbs, ∃ s t, e = TrackerEv.callback s t)
    (hTimeout : (trackerStep (runTracker (process_start st reqId) cbs) .procFinish).2 = some none) :
    (runTracker st (.procStart reqId :: cbs ++ [.procFinish])).fps_hist = st.fps_hist ∧
    fps (runTracker st (.procStart reqId :: cbs ++ [.procFinish])).fps_hist
      = fps st.fps_hist := by
  have hmid : (runTracker (process_start st reqId) cbs).fps_hist = st.fps_hist := by
    rw [runTracker_callbacks_fps_hist cbs _ hcb]
    rfl
  have hfin : ∀ s : TrackerState, (trackerStep s TrackerEv.procFinish).2 = some none →
      (trackerStep s TrackerEv.procFinish).1.fps_hist = s.fps_hist := by
    intro s hs
    unfold trackerStep process_finish at hs ⊢
    cases hf : s.future with
    | none => simp [hf]
    | some slot =>
      cases hv : slot.value with
      | none => simp [hf, hv]
      | some p => simp [hf, hv] at hs
  have hrun : (runTracker st (.procStart reqId :: cbs ++ [.procFinish])).fps_hist
      = st.fps_hist := by
    have e1 : runTracker st (TrackerEv.procStart reqId :: cbs ++ [TrackerEv.procFinish])
        = runTracker (process_start st reqId) (cbs ++ [TrackerEv.procFinish]) := rfl
    rw [e1, runTracker_append]
    have e2 : runTracker (runTracker (process_start st reqId) cbs) [TrackerEv.procFinish]
        = (trackerStep (runTracker (process_start st reqId) cbs) TrackerEv.procFinish).1 := rfl
    rw [e2, hfin _ hTimeout, hmid]
  exact ⟨hrun, by rw [hrun]⟩

/-- C10 witness: a call on the fresh tracker with no callback times out and
leaves the empty history (hence the fps value) unchanged. -/
theorem timeout_call_preserves_fps_witness :
    (runTracker initTracker (.procStart 1 :: [] ++ [.procFinish])).fps_hist
      = initTracker.fps_hist ∧
    fps (runTracker initTracker (.procStart 1 :: [] ++ [.procFinish])).fps_hist
      = fps initTracker.fps_hist :=
  timeout_call_preserves_fps initTracker 1 [] (by simp) (by decide)

/-- C1: evaluating the tracker machine on the failing trace — request 1 is
submitted and times out, request 2 is then submitted and pending, and the
late callback of request 1 fires: the code completes the correlation slot
owned by request 2 with the stale result of request 1, and the wait of
request 2 then returns that stale result. -/
theorem late_callback_completes_newer_slot :
    (runTracker initTracker
      [TrackerEv.procStart 1, TrackerEv.procFinish,
       TrackerEv.procStart 2, TrackerEv.callback 1 100]).future =
      some { owner := 2, value := some (1, 100) } ∧
    (trackerStep (runTracker initTracker
      [TrackerEv.procStart 1, TrackerEv.procFinish,
       TrackerEv.procStart 2, TrackerEv.callback 1 100]) TrackerEv.procFinish).2 =
      some (some (1, 100)) := by
  exact ⟨rfl, rfl⟩

/-- C2 counterexample: the empty buffer is malformed (shorter than 4 bytes,
and its empty header slice is not valid JSON); the loop responds with an
error object — not with an absent-result payload — and keeps the connection
alive. -/
theorem malformed_gets_error_not_absent :
    ws_iteration collabModel [] = (some (OutMsg.errorMsg jsonErrMsg), LoopAct.contLoop) ∧
    respondsAbsentAndStaysAlive (ws_iteration collabModel []) = false := by
  exact ⟨rfl, rfl⟩

/-- C2 amended: whenever the JSON decode of the sliced header bytes fails —
which covers every buffer shorter than 4 bytes and every header that is not
valid UTF-8 JSON — the loop responds with an error object and does not
disconnect. -/
theorem malformed_header_error_no_disconnect (c : Collab) (raw : List Nat)
    (h : c.jsonLoads ((raw.drop 4).take (intFromBytesLE (raw.take 4))) = none) :
    ws_iteration c raw = (some (OutMsg.errorMsg jsonErrMsg), LoopAct.contLoop) := by
  simp [ws_iteration, ws_body, h]

/-- C2 amended witness: the empty buffer. -/
theorem malformed_header_error_no_disconnect_witness :
    ws_iteration collabModel [] = (some (OutMsg.errorMsg jsonErrMsg), LoopAct.contLoop) :=
  malformed_header_error_no_disconnect collabModel [] rfl

/-- C3 counterexample: a valid message whose tracker call raises
`RuntimeError` — as a detection-engine fault can — makes the loop terminate
without sending any error object, instead of reporting it and continuing. -/
theorem engine_runtime_fault_disconnects :
    ws_iteration collabRuntimeFault [2, 0, 0, 0, 123, 125] = (none, LoopAct.stopLoop) := by
  rfl

/-- C3 amended: a per-message fault from the tracker call that is not a
`RuntimeError` is caught at loop level, reported back as an error object
carrying the message, and the connection stays alive; a `RuntimeError` fault
terminates the loop without a response. -/
theorem engine_fault_handling (c : Collab) (raw : List Nat) (hdr : Header)
    (frame : Frame) (msg : String)
    (hj : c.jsonLoads ((raw.drop 4).take (intFromBytesLE (raw.take 4))) = some hdr)
    (hd : c.decode_jpeg (raw.drop (4 + intFromBytesLE (raw.take 4))) = some frame) :
    (c.process frame (hdr.ts.getD c.now) = .error (.otherExc msg) →
      ws_iteration c raw = (some (OutMsg.errorMsg msg), LoopAct.contLoop)) ∧
    (c.process frame (hdr.ts.getD c.now) = .error (.runtimeError msg) →
      ws_iteration c raw = (none, LoopAct.stopLoop)) := by
  constructor <;> intro hp <;> simp [ws_iteration, ws_body, hj, hd, hp]

/-- C3 amended witness: a concrete non-`RuntimeError` fault is reported and
the loop continues. -/
theorem engine_fault_handling_witness :
    ws_iteration collabOtherFault [2, 0, 0, 0, 123, 125] =
      (some (OutMsg.errorMsg "bad matrix"), LoopAct.contLoop) :=
  (engine_fault_handling collabOtherFault [2, 0, 0, 0, 123, 125] { ts := none }
    Frame.mk "bad matrix" rfl rfl).1 rfl

/-- Every score of every blendshape list of a result is in the unit
interval. -/
def scoresInUnit (res : DetResult) : Prop :=
  ∀ face ∈ res.face_blendshapes, ∀ e ∈ face, 0 ≤ e.score ∧ e.score ≤ 1

/-- The inner lookup returns 0 or one of the listed scores, so it stays in
the unit interval when all scores do. -/
lemma lookupScore_unit (l : List BlendshapeEntry) (name : String)
    (h : ∀ e ∈ l, 0 ≤ e.score ∧ e.score ≤ 1) :
    0 ≤ lookupScore l name ∧ lookupScore l name ≤ 1 := by
  induction l with
  | nil => simp [lookupScore]
  | cons e rest ih =>
    rw [lookupScore]
    split
    · exact h e (by simp)
    · exact ih (fun x hx => h x (by simp [hx]))

/-- `blendshape_lookup` stays in the unit interval when all scores do. -/
lemma blendshape_lookup_unit (blend : List (List BlendshapeEntry)) (name : String)
    (h : ∀ face ∈ blend, ∀ e ∈ face, 0 ≤ e.score ∧ e.score ≤ 1) :
    0 ≤ blendshape_lookup blend name ∧ blendshape_lookup blend name ≤ 1 := by
  cases blend with
  | nil => simp [blendshape_lookup]
  | cons first rest =>
    exact lookupScore_unit first name (h first (by simp))

/-- The eye/mouth/brow fields assembled for a result with at least one
face, read off the source assignments. -/
lemma build_payload_present_fields (ops : FloatOps) (res : DetResult) (hdr : Header)
    (fps_server : ℚ) (now : Int) (lm0 : Nat → Landmark) (rest : List (Nat → Landmark))
    (hlm : res.face_landmarks = lm0 :: rest) :
    (build_payload ops (some res) hdr fps_server now).eye.leftOpen
        = max 0 (1 - blendshape_lookup res.face_blendshapes "eyeBlinkLeft") ∧
    (build_payload ops (some res) hdr fps_server now).eye.rightOpen
        = max 0 (1 - blendshape_lookup res.face_blendshapes "eyeBlinkRight") ∧
    (build_payload ops (some res) hdr fps_server now).mouth.open_
        = min 1 (blendshape_lookup res.face_blendshapes "jawOpen") ∧
    (build_payload ops (some res) hdr fps_server now).mouth.smile
        = (blendshape_lookup res.face_blendshapes "mouthSmileLeft"
            + blendshape_lookup res.face_blendshapes "mouthSmileRight") * 0.5 ∧
    (build_payload ops (some res) hdr fps_server now).brow.leftUp
        = max (blendshape_lookup res.face_blendshapes "browInnerUp")
            (blendshape_lookup res.face_blendshapes "browOuterUpLeft") ∧
    (build_payload ops (some res) hdr fps_server now).brow.rightUp
        = max (blendshape_lookup res.face_blendshapes "browInnerUp")
            (blendshape_lookup res.face_blendshapes "browOuterUpRight") := by
  refine ⟨?_, ?_, ?_, ?_, ?_, ?_⟩ <;>
    cases hts : hdr.ts <;>
      simp [build_payload, build_empty_payload, hlm, hts] <;>
        split <;> rfl

/-- Detection result used as the C6 counterexample: one face, smile scores
of 2 on both sides, no transformation matrix. -/
def smileRes : DetResult :=
  { face_landmarks := [fun _ => { x := 0, y := 0, z := 0 }]
    face_blendshapes := [[{ category_name := "mouthSmileLeft", score := 2 },
                          { category_name := "mouthSmileRight", score := 2 }]]
    facial_transformation_matrixes := [] }

/-- C6 counterexample: with out-of-range smile scores of 2.0, the assembled
mouth.smile is 2, outside the unit interval — the smile field is averaged,
not clamped. -/
theorem smile_exceeds_unit :
    (build_payload floatOpsModel (some smileRes) { ts := some 1000 } 0 2000).mouth.smile = 2 ∧
    ¬ fieldsInUnit (build_payload floatOpsModel (some smileRes) { ts := some 1000 } 0 2000) := by
  have h2 : (build_payload floatOpsModel (some smileRes)
      { ts := some 1000 } 0 2000).mouth.smile = 2 := by
    have h := build_payload_present_fields floatOpsModel smileRes { ts := some 1000 } 0 2000
      (fun _ => { x := 0, y := 0, z := 0 }) [] rfl
    rw [h.2.2.2.1]
    norm_num [smileRes, blendshape_lookup, lookupScore]
  refine ⟨h2, fun hf => ?_⟩
  have hle := hf.2.2.2.1.2
  rw [h2] at hle
  norm_num at hle

/-- C6 amended: for a detection result with at least one face, whenever every
blendshape score lies in the unit interval, all six eye/mouth/brow fields of
the assembled payload lie in the unit interval. -/
theorem payload_fields_unit (ops : FloatOps) (res : DetResult) (hdr : Header)
    (fps_server : ℚ) (now : Int) (lm0 : Nat → Landmark) (rest : List (Nat → Landmark))
    (hlm : res.face_landmarks = lm0 :: rest) (hs : scoresInUnit res) :
    fieldsInUnit (build_payload ops (some res) hdr fps_server now) := by
  have hb : ∀ name, 0 ≤ blendshape_lookup res.face_blendshapes name ∧
      blendshape_lookup res.face_blendshapes name ≤ 1 :=
    fun name => blendshape_lookup_unit res.face_blendshapes name hs
  obtain ⟨hel, her, hmo, hms, hbl, hbr⟩ :=
    build_payload_present_fields ops res hdr fps_server now lm0 rest hlm
  obtain ⟨hL0, hL1⟩ := hb "eyeBlinkLeft"
  obtain ⟨hR0, hR1⟩ := hb "eyeBlinkRight"
  obtain ⟨hJ0, hJ1⟩ := hb "jawOpen"
  obtain ⟨hSL0, hSL1⟩ := hb "mouthSmileLeft"
  obtain ⟨hSR0, hSR1⟩ := hb "mouthSmileRight"
  obtain ⟨hBI0, hBI1⟩ := hb "browInnerUp"
  obtain ⟨hBL0, hBL1⟩ := hb "browOuterUpLeft"
  obtain ⟨hBR0, hBR1⟩ := hb "browOuterUpRight"
  unfold fieldsInUnit inUnit
  rw [hel, her, hmo, hms, hbl, hbr]
  refine ⟨⟨?_, ?_⟩, ⟨?_, ?_⟩, ⟨?_, ?_⟩, ⟨?_, ?_⟩, ⟨?_, ?_⟩, ⟨?_, ?_⟩⟩
  · exact le_max_left _ _
  · exact max_le (by norm_num) (by linarith)
  · exact le_max_left _ _
  · exact max_le (by norm_num) (by linarith)
  · exact le_min (by norm_num) hJ0
  · exact min_le_left _ _
  · nlinarith
  · nlinarith
  · exact le_trans hBI0 (le_max_left _ _)
  · exact max_le hBI1 hBL1
  · exact le_trans hBI0 (le_max_left _ _)
  · exact max_le hBI1 hBR1

/-- Detection result with one face and in-range blendshape scores, used as
the C6 witness. -/
def okRes : DetResult :=
  { face_landmarks := [fun _ => { x := 0, y := 0, z := 0 }]
    face_blendshapes := [[{ category_name := "jawOpen", score := 1 },
                          { category_name := "eyeBlinkLeft", score := 0 }]]
    facial_transformation_matrixes := [] }

/-- C6 amended witness: a concrete in-range result assembles to in-range
fields. -/
theorem payload_fields_unit_witness :
    fieldsInUnit (build_payload floatOpsModel (some okRes) { ts := some 1000 } 0 2000) :=
  payload_fields_unit floatOpsModel okRes { ts := some 1000 } 0 2000
    (fun _ => { x := 0, y := 0, z := 0 }) [] rfl
    (by unfold scoresInUnit; decide)

end Motion
